import Mathlib

/-!
Shallow embedding of the cogsworth container orchestrator (galadd/cogsworth)
and proofs about its scheduler, worker reconciler, and control API.

The Go source is translated function by function:
* `src/types.go` — the data model (`Container`, `Node`, states, roles) and the
  multi-node worker reconciler (`Reconciler.reconcileContainer` together with
  `reconcileRunning` / `reconcileStopped` / `reconcileDestroyed`,
  `saveContainerStatus`, `deleteContainer`).
* `src/unnamed/part_003` — the scheduler (`Scheduler.Schedule`,
  `Scheduler.selectNode`, `Scheduler.countContainersOnNode`).
* `src/unnamed/part_000` — the control API server (heartbeat handler).

Runtime-driver calls and store/API writes performed by a reconcile step are
made explicit as traces (`RuntimeCall`, `WriteOp`); the runtime driver itself
is a parameter (a record of response functions), so a single tick is a pure
function of the container record, the driver's responses and the clock.
-/

namespace Cogsworth

/-- Container lifecycle states (`src/types.go`, `ContainerState` constants). -/
inductive ContainerState where
  | requested
  | pulling
  | created
  | starting
  | running
  | stopping
  | stopped
  | failed
  | destroyed
  deriving DecidableEq, Repr

/-- A port mapping (`src/types.go`, `PortMapping`). -/
structure PortMapping where
  hostPort : Int
  containerPort : Int
  protocol : String
  deriving DecidableEq, Repr

/-- A container record (`src/types.go`, `Container`), with the `scheduled` and
`node_id` fields of the JSON model (spec §3) that are read and written by
`Scheduler.Schedule` (`src/unnamed/part_003`) and the `/containers/assigned`
handler (`src/unnamed/part_000`).  Timestamps are modelled as `Nat`;
`restart_count` is a Go `int`, modelled as `Int`. -/
structure Container where
  id : String
  image : String
  state : ContainerState
  desiredState : ContainerState
  createdAt : Nat
  updatedAt : Nat
  containerID : String
  ipAddress : String
  env : List (String × String)
  ports : List PortMapping
  restartCount : Int
  scheduled : Bool
  nodeID : String
  deriving DecidableEq, Repr

/-- Node health states (`src/types.go`, `NodeState`). -/
inductive NodeState where
  | ready
  | notReady
  deriving DecidableEq, Repr

/-- Node roles (`src/types.go`, `NodeRole`). -/
inductive NodeRole where
  | controlPlane
  | worker
  deriving DecidableEq, Repr

/-- Advisory resource vector (`src/types.go`, `Resources`). -/
structure Resources where
  cpuCores : Int
  memoryMB : Int
  diskGB : Int
  deriving DecidableEq, Repr

/-- A node record (`src/types.go`, `Node`). -/
structure Node where
  id : String
  address : String
  role : NodeRole
  state : NodeState
  createdAt : Nat
  lastSeen : Nat
  capacity : Resources
  allocated : Resources
  deriving DecidableEq, Repr

/-- Runtime-driver container spec (`src/unnamed/part_004`, `ContainerSpec`). -/
structure ContainerSpec where
  image : String
  env : List (String × String)
  ports : List PortMapping
  name : String
  deriving DecidableEq, Repr

/-- Result of a runtime inspect (`src/unnamed/part_004`, `RuntimeStatus`). -/
structure RuntimeStatus where
  containerID : String
  state : String
  ipAddress : String
  startedAt : String
  exitCode : Int
  errorMsg : String
  deriving DecidableEq, Repr

/-- The runtime driver (`src/unnamed/part_004`, interface `Runtime`), modelled
as a record of response functions: each call either fails with an error message
or returns its result.  `remove` is the force-remove of the Docker driver
(`ContainerRemove` with `Force: true`). -/
structure Runtime where
  pull : String → Except String Unit
  create : ContainerSpec → Except String String
  start : String → Except String Unit
  stop : String → Int → Except String Unit
  remove : String → Except String Unit
  inspect : String → Except String RuntimeStatus

/-- One runtime-driver call issued by a reconcile step, with its arguments. -/
inductive RuntimeCall where
  | pull (image : String)
  | create (spec : ContainerSpec)
  | start (containerID : String)
  | stop (containerID : String) (timeout : Int)
  | remove (containerID : String)
  | inspect (containerID : String)
  deriving DecidableEq, Repr

/-- One write issued by a reconcile step: `saveStatus` is
`Reconciler.saveContainerStatus` (an API upsert on a worker, a store save on
the control plane); `deleteRecord` is `Reconciler.deleteContainer`. -/
inductive WriteOp where
  | saveStatus (c : Container)
  | deleteRecord (id : String)
  deriving DecidableEq, Repr

/-- The outcome of reconciling one container for one tick: the container value
after the step's local mutations, the runtime calls and writes issued, and the
error returned (if any). -/
structure TickResult where
  container : Container
  calls : List RuntimeCall
  writes : List WriteOp
  err : Option String
  deriving DecidableEq, Repr

/-- The spec the reconciler hands to `runtime.Create`
(`src/types.go`, `reconcileRunning`, construction of `spec`). -/
def mkSpec (c : Container) : ContainerSpec :=
  { image := c.image, env := c.env, ports := c.ports, name := c.id }

/-- Observed-to-state mapping from the runtime (`src/types.go`,
`reconcileContainer`, the `switch status.State`). -/
def mapRuntimeState (s : String) : ContainerState :=
  if s = "running" then ContainerState.running
  else if s = "exited" ∨ s = "dead" then ContainerState.stopped
  else if s = "created" then ContainerState.created
  else ContainerState.failed

/-- The observation phase of `Reconciler.reconcileContainer` (`src/types.go`):
inspect the runtime resource when `container.ContainerID` is nonempty; an
inspect error yields `runtimeExists = false` and empty `actualState` (here
`none`).  Returns `(actualState, runtimeExists, calls issued)`. -/
def observe (rt : Runtime) (c : Container) :
    Option ContainerState × Bool × List RuntimeCall :=
  if c.containerID = "" then (none, false, [])
  else
    match rt.inspect c.containerID with
    | Except.error _ => (none, false, [RuntimeCall.inspect c.containerID])
    | Except.ok st =>
        (some (mapRuntimeState st.state), true, [RuntimeCall.inspect c.containerID])

/-- The tail of `Reconciler.reconcileRunning` (`src/types.go`): the
`if actualState != Running` block.  `calls`/`writes` accumulate what the
enclosing step already issued (the create path saves the `Created` container
before falling through to the start attempt). -/
def startPhase (rt : Runtime) (now : Nat) (c : Container)
    (actual : Option ContainerState)
    (calls : List RuntimeCall) (writes : List WriteOp) : TickResult :=
  if actual = some ContainerState.running then
    { container := c, calls := calls, writes := writes, err := none }
  else
    match rt.start c.containerID with
    | Except.error e =>
        let c' :=
          if 3 ≤ c.restartCount + 1 then
            { c with restartCount := c.restartCount + 1, updatedAt := now,
                     state := ContainerState.failed,
                     desiredState := ContainerState.stopped }
          else
            { c with restartCount := c.restartCount + 1, updatedAt := now,
                     state := ContainerState.failed }
        { container := c',
          calls := calls ++ [RuntimeCall.start c.containerID],
          writes := writes ++ [WriteOp.saveStatus c'],
          err := some e }
    | Except.ok _ =>
        match rt.inspect c.containerID with
        | Except.ok st =>
            let c' := { c with ipAddress := st.ipAddress,
                               state := ContainerState.running, updatedAt := now }
            { container := c',
              calls := calls ++ [RuntimeCall.start c.containerID,
                                 RuntimeCall.inspect c.containerID],
              writes := writes ++ [WriteOp.saveStatus c'],
              err := none }
        | Except.error _ =>
            let c' := { c with state := ContainerState.running, updatedAt := now }
            { container := c',
              calls := calls ++ [RuntimeCall.start c.containerID,
                                 RuntimeCall.inspect c.containerID],
              writes := writes ++ [WriteOp.saveStatus c'],
              err := none }

/-- `Reconciler.reconcileRunning` (`src/types.go` lines 208-268): quarantine at
`restart_count >= 3`; pull + create when no runtime resource (a create failure
returns the error without touching the record); then the start attempt. -/
def reconcileRunning (rt : Runtime) (now : Nat) (c : Container)
    (actual : Option ContainerState) (rexists : Bool) : TickResult :=
  if 3 ≤ c.restartCount then
    { container := c, calls := [], writes := [], err := none }
  else if rexists then
    startPhase rt now c actual [] []
  else
    match rt.pull c.image with
    | Except.error e =>
        { container := c, calls := [RuntimeCall.pull c.image],
          writes := [], err := some e }
    | Except.ok _ =>
        match rt.create (mkSpec c) with
        | Except.error e =>
            { container := c,
              calls := [RuntimeCall.pull c.image, RuntimeCall.create (mkSpec c)],
              writes := [], err := some e }
        | Except.ok dockerID =>
            let c1 := { c with containerID := dockerID,
                               state := ContainerState.created }
            startPhase rt now c1 actual
              [RuntimeCall.pull c.image, RuntimeCall.create (mkSpec c)]
              [WriteOp.saveStatus c1]

/-- `Reconciler.reconcileStopped` (`src/types.go` lines 270-283): stop with a
grace of 10 only when the runtime resource exists and is observed Running. -/
def reconcileStopped (rt : Runtime) (now : Nat) (c : Container)
    (actual : Option ContainerState) (rexists : Bool) : TickResult :=
  if rexists = true ∧ actual = some ContainerState.running then
    match rt.stop c.containerID 10 with
    | Except.error e =>
        { container := c, calls := [RuntimeCall.stop c.containerID 10],
          writes := [], err := some e }
    | Except.ok _ =>
        let c' := { c with state := ContainerState.stopped, updatedAt := now }
        { container := c', calls := [RuntimeCall.stop c.containerID 10],
          writes := [WriteOp.saveStatus c'], err := none }
  else
    { container := c, calls := [], writes := [], err := none }

/-- `Reconciler.reconcileDestroyed` (`src/types.go` lines 285-296): remove when
the runtime resource exists (a remove failure returns before the deletion),
then delete the record. -/
def reconcileDestroyed (rt : Runtime) (c : Container) (rexists : Bool) :
    TickResult :=
  if rexists then
    match rt.remove c.containerID with
    | Except.error e =>
        { container := c, calls := [RuntimeCall.remove c.containerID],
          writes := [], err := some e }
    | Except.ok _ =>
        { container := c, calls := [RuntimeCall.remove c.containerID],
          writes := [WriteOp.deleteRecord c.id], err := none }
  else
    { container := c, calls := [], writes := [WriteOp.deleteRecord c.id],
      err := none }

/-- The convergence-rule dispatch of `Reconciler.reconcileContainer`
(`src/types.go` lines 196-206): the `switch container.DesiredState` evaluated
on the already-computed observation `(actualState, runtimeExists)`; desired
states outside {Running, Stopped, Destroyed} fall through and return `nil`. -/
def converge (rt : Runtime) (now : Nat) (c : Container)
    (actual : Option ContainerState) (rexists : Bool) : TickResult :=
  match c.desiredState with
  | ContainerState.running => reconcileRunning rt now c actual rexists
  | ContainerState.stopped => reconcileStopped rt now c actual rexists
  | ContainerState.destroyed => reconcileDestroyed rt c rexists
  | _ => { container := c, calls := [], writes := [], err := none }

/-- One full per-container worker step (`Reconciler.reconcileContainer`,
`src/types.go` lines 169-206): the observation phase followed by the
convergence-rule dispatch, with the observation's inspect call prepended. -/
def reconcileContainer (rt : Runtime) (now : Nat) (c : Container) : TickResult :=
  let obs := observe rt c
  let r := converge rt now c obs.1 obs.2.1
  { r with calls := obs.2.2 ++ r.calls }

/-- Iterated convergence steps on one container: each tick supplies the
runtime driver's responses and the observation for that tick (spec §4.4: the
worker re-fetches the record each tick; an unwritten record is unchanged).
Returns the final container and the accumulated calls and writes. -/
def runConvergeTicks (now : Nat) :
    Container → List (Runtime × Option ContainerState × Bool) →
      Container × List RuntimeCall × List WriteOp
  | c, [] => (c, [], [])
  | c, t :: rest =>
      let r := converge t.1 now c t.2.1 t.2.2
      let tail := runConvergeTicks now r.container rest
      (tail.1, r.calls ++ tail.2.1, r.writes ++ tail.2.2)

/-! ## Scheduler (`src/unnamed/part_003`) -/

/-- The initial value of `minContainers` in `Scheduler.selectNode`:
`int(^uint(0) >> 1)`, the largest 64-bit Go `int`. -/
def maxGoInt : Nat := 2 ^ 63 - 1

/-- `Scheduler.countContainersOnNode` (`src/unnamed/part_003` lines 56-67):
the number of containers assigned to `nodeId` whose observed state is
Running, over the store's container list. -/
def countContainersOnNode (containers : List Container) (nodeId : String) : Nat :=
  (containers.filter
    (fun c => c.nodeID = nodeId ∧ c.state = ContainerState.running)).length

/-- The loop of `Scheduler.selectNode` (`src/unnamed/part_003` lines 41-51):
skip nodes that are not Ready (the role field is never consulted); take a
node when its container count is strictly below the running minimum. -/
def selectNodeGo (containers : List Container) :
    List Node → Option Node → Nat → Option Node
  | [], sel, _ => sel
  | n :: rest, sel, minC =>
      if n.state = NodeState.ready then
        if countContainersOnNode containers n.id < minC then
          selectNodeGo containers rest (some n) (countContainersOnNode containers n.id)
        else
          selectNodeGo containers rest sel minC
      else
        selectNodeGo containers rest sel minC

/-- `Scheduler.selectNode` (`src/unnamed/part_003` lines 37-54).  Returns
`none` exactly when the Go code returns a nil pointer. -/
def selectNode (containers : List Container) (nodes : List Node) : Option Node :=
  selectNodeGo containers nodes none maxGoInt

/-- The outcome of `Scheduler.Schedule` (`src/unnamed/part_003` lines 18-35). -/
inductive SchedOutcome where
  | noop
  | panicked
  | committed (c : Container)
  deriving DecidableEq, Repr

/-- `Scheduler.Schedule` (`src/unnamed/part_003` lines 18-35), with the store
reads supplied as the lists they return: return early when already scheduled;
otherwise select a node.  When `selectNode` returns nil, the Go code
dereferences it (`container.NodeID = selected.ID`) and panics — modelled as
`SchedOutcome.panicked`.  On selection the updated container is saved
(`SchedOutcome.committed`). -/
def schedule (containers : List Container) (nodes : List Node) (now : Nat)
    (c : Container) : SchedOutcome :=
  if c.scheduled then SchedOutcome.noop
  else
    match selectNode containers nodes with
    | none => SchedOutcome.panicked
    | some n =>
        SchedOutcome.committed
          { c with nodeID := n.id, scheduled := true, updatedAt := now }

/-- What `selectNodeGo` maintains about the processed prefix `pre`, carrying
the running `sel`/`minC` pair: either nothing has been taken (every Ready node
seen so far had a count at or above the initial minimum), or `sel` is the
first Ready node of `pre` attaining the strictly-least count seen so far. -/
def ReadyMin (containers : List Container) (pre : List Node)
    (sel : Option Node) (minC : Nat) : Prop :=
  match sel with
  | none =>
      minC = maxGoInt ∧
      ∀ m ∈ pre, m.state = NodeState.ready →
        maxGoInt ≤ countContainersOnNode containers m.id
  | some s =>
      s.state = NodeState.ready ∧
      minC = countContainersOnNode containers s.id ∧
      ∃ p₁ p₂, pre = p₁ ++ s :: p₂ ∧
        (∀ m ∈ p₁, m.state = NodeState.ready →
          countContainersOnNode containers s.id < countContainersOnNode containers m.id) ∧
        (∀ m ∈ p₂, m.state = NodeState.ready →
          countContainersOnNode containers s.id ≤ countContainersOnNode containers m.id)

/-! ## Control API: heartbeat (`src/unnamed/part_000`) -/

/-- HTTP status codes used by the control API handlers. -/
inductive HttpStatus where
  | ok200
  | badRequest400
  | notFound404
  | serverError500
  deriving DecidableEq, Repr

/-- Modelled from the spec: the Store contract (§6) keeps a logical nodes
table mapping id to record; `get_node(id) → n | NotFound` is keyed lookup.
The node-store implementation is not under `src/` (only the containers bucket
of `storage.go` is); lookup by key over the snapshot list follows the
contract and the containers implementation (`BoltStore.GetContainer`). -/
def getNode : List Node → String → Option Node
  | [], _ => none
  | n :: rest, nid => if n.id = nid then some n else getNode rest nid

/-- Modelled from the spec: the Store contract (§6) `save_node(n)` — a keyed
upsert, replacing the record with the same id or inserting a new one,
following `BoltStore.SaveContainer` (`bucket.Put(key, value)`). -/
def saveNode (nodes : List Node) (n : Node) : List Node :=
  if ∃ m ∈ nodes, m.id = n.id then
    nodes.map (fun m => if m.id = n.id then n else m)
  else
    nodes ++ [n]

/-- The `/nodes/heartbeat` handler (`src/unnamed/part_000` lines 47-65): look
up the node by the request's `node_id`; unknown → 404 with the store
untouched; otherwise set `last_seen = now`, save, and respond 200. -/
def heartbeatHandler (nodes : List Node) (nid : String) (now : Nat) :
    HttpStatus × List Node :=
  match getNode nodes nid with
  | none => (HttpStatus.notFound404, nodes)
  | some n => (HttpStatus.ok200, saveNode nodes { n with lastSeen := now })

/-! ## Concrete fixtures used by witnesses and counterexamples -/

/-- An inspect result reporting a running container. -/
def okStatus : RuntimeStatus :=
  { containerID := "rt-1", state := "running", ipAddress := "10.0.0.5",
    startedAt := "", exitCode := 0, errorMsg := "" }

/-- A runtime driver on which every call succeeds. -/
def okRuntime : Runtime :=
  { pull := fun _ => Except.ok ()
    create := fun _ => Except.ok "rt-1"
    start := fun _ => Except.ok ()
    stop := fun _ _ => Except.ok ()
    remove := fun _ => Except.ok ()
    inspect := fun _ => Except.ok okStatus }

/-- A runtime driver whose `create` always fails. -/
def createFailRuntime : Runtime :=
  { okRuntime with create := fun _ => Except.error "create failed" }

/-- A runtime driver whose `start` always fails. -/
def startFailRuntime : Runtime :=
  { okRuntime with start := fun _ => Except.error "start failed" }

/-- A runtime driver whose `remove` always fails. -/
def removeFailRuntime : Runtime :=
  { okRuntime with remove := fun _ => Except.error "remove failed" }

/-- A runtime driver whose `stop` always fails. -/
def stopFailRuntime : Runtime :=
  { okRuntime with stop := fun _ _ => Except.error "stop failed" }

/-- A freshly added container (as built by the CLI `add` path). -/
def baseContainer : Container :=
  { id := "cont-1", image := "nginx:alpine", state := ContainerState.requested,
    desiredState := ContainerState.running, createdAt := 0, updatedAt := 0,
    containerID := "", ipAddress := "", env := [], ports := [],
    restartCount := 0, scheduled := false, nodeID := "" }

/-- A container quarantined at the restart cap. -/
def quarantinedContainer : Container :=
  { baseContainer with restartCount := 3, containerID := "rt-1",
                       state := ContainerState.failed,
                       scheduled := true, nodeID := "worker-1" }

/-- A container one failed start away from the restart cap. -/
def almostCappedContainer : Container :=
  { baseContainer with restartCount := 2, containerID := "rt-1",
                       scheduled := true, nodeID := "worker-1" }

/-- A container marked for destruction with a live runtime resource. -/
def destroyedContainer : Container :=
  { baseContainer with desiredState := ContainerState.destroyed,
                       containerID := "rt-1",
                       scheduled := true, nodeID := "worker-1" }

/-- A container with desired state Stopped and a runtime resource. -/
def stoppedDesiredContainer : Container :=
  { baseContainer with desiredState := ContainerState.stopped,
                       containerID := "rt-1", state := ContainerState.running,
                       scheduled := true, nodeID := "worker-1" }

/-- A container whose desired state is Requested (accepted unvalidated by the
`/containers` upsert). -/
def requestedDesiredContainer : Container :=
  { baseContainer with desiredState := ContainerState.requested }

/-- A Ready worker node. -/
def nodeW1 : Node :=
  { id := "worker-1", address := "10.0.0.1", role := NodeRole.worker,
    state := NodeState.ready, createdAt := 0, lastSeen := 0,
    capacity := { cpuCores := 0, memoryMB := 0, diskGB := 0 },
    allocated := { cpuCores := 0, memoryMB := 0, diskGB := 0 } }

/-- A second Ready worker node. -/
def nodeW2 : Node :=
  { nodeW1 with id := "worker-2", address := "10.0.0.2" }

/-- A NotReady worker node. -/
def nodeW1NotReady : Node :=
  { nodeW1 with state := NodeState.notReady }

/-- A Ready node whose role is ControlPlane. -/
def nodeCPReady : Node :=
  { nodeW1 with id := "cp-1", role := NodeRole.controlPlane }

/-- A container observed Running on the node `nid`. -/
def runningOn (nid : String) (cid : String) : Container :=
  { baseContainer with id := cid, state := ContainerState.running,
                       scheduled := true, nodeID := nid,
                       containerID := "rt-" ++ cid }

/-- Two containers Running on worker-1, none on worker-2 (spec §8 scenario 4). -/
def loadedContainers : List Container :=
  [runningOn "worker-1" "cont-a", runningOn "worker-1" "cont-b"]

/-! ## Helper lemmas -/

/-- Quarantine: `reconcileRunning` at the restart cap does nothing. -/
theorem reconcileRunning_quarantine (rt : Runtime) (now : Nat) (c : Container)
    (actual : Option ContainerState) (rexists : Bool)
    (h : 3 ≤ c.restartCount) :
    reconcileRunning rt now c actual rexists =
      { container := c, calls := [], writes := [], err := none } := by
  simp [reconcileRunning, h]

/-! ## C4 — quarantined containers get no action -/

/-- C4: a container with `desired_state = Running` and `restart_count ≥ 3` is
quarantined: over any sequence of worker reconcile ticks the convergence rules
issue no runtime call and no store/API write, and the record is unchanged —
in particular no further start attempt ever occurs. -/
theorem quarantined_running_no_action (now : Nat) (c : Container)
    (ticks : List (Runtime × Option ContainerState × Bool))
    (hds : c.desiredState = ContainerState.running)
    (hrc : 3 ≤ c.restartCount) :
    runConvergeTicks now c ticks = (c, [], []) := by
  induction ticks with
  | nil => rfl
  | cons t rest ih =>
      have hstep : converge t.1 now c t.2.1 t.2.2 =
          { container := c, calls := [], writes := [], err := none } := by
        simp [converge, hds, reconcileRunning_quarantine, hrc]
      simp [runConvergeTicks, hstep, ih]

/-- Witness for C4 at a concrete quarantined container and one tick. -/
theorem quarantined_running_no_action_witness :
    runConvergeTicks 7 quarantinedContainer
        [(okRuntime, some ContainerState.stopped, true)] =
      (quarantinedContainer, [], []) :=
  quarantined_running_no_action 7 quarantinedContainer
    [(okRuntime, some ContainerState.stopped, true)] rfl (by decide)

/-! ## C10 — desired states outside the switch are silently skipped -/

/-- C10: a container whose `desired_state` is none of Running, Stopped or
Destroyed falls through the `reconcileContainer` switch: every tick's
convergence step returns the record unchanged with no runtime call, no write
and no error, over any sequence of ticks. -/
theorem unknown_desired_state_skipped (now : Nat) (c : Container)
    (h1 : c.desiredState ≠ ContainerState.running)
    (h2 : c.desiredState ≠ ContainerState.stopped)
    (h3 : c.desiredState ≠ ContainerState.destroyed) :
    (∀ (rt : Runtime) (actual : Option ContainerState) (rexists : Bool),
        converge rt now c actual rexists =
          { container := c, calls := [], writes := [], err := none })
    ∧ ∀ ticks, runConvergeTicks now c ticks = (c, [], []) := by
  have hstep : ∀ (rt : Runtime) (actual : Option ContainerState) (rexists : Bool),
      converge rt now c actual rexists =
        { container := c, calls := [], writes := [], err := none } := by
    intro rt actual rexists
    cases hd : c.desiredState <;> simp_all [converge]
  refine ⟨hstep, ?_⟩
  intro ticks
  induction ticks with
  | nil => rfl
  | cons t rest ih => simp [runConvergeTicks, hstep, ih]

/-- Witness for C10 at a concrete Requested-desired container. -/
theorem unknown_desired_state_skipped_witness :
    converge okRuntime 3 requestedDesiredContainer none false =
      { container := requestedDesiredContainer, calls := [], writes := [],
        err := none } :=
  (unknown_desired_state_skipped 3 requestedDesiredContainer
      (by decide) (by decide) (by decide)).1 okRuntime none false

/-! ## C7 — desired Stopped convergence -/

/-- C7: with `desired_state = Stopped`, the convergence step issues a stop
with a grace of exactly 10 and sets `state = Stopped` (persisting it) iff the
runtime resource exists and is observed Running; a stop error leaves the
record unchanged with no write; in every other case the step issues no
runtime call and no write. -/
theorem stopped_convergence_spec (rt : Runtime) (now : Nat) (c : Container)
    (actual : Option ContainerState) (rexists : Bool)
    (hds : c.desiredState = ContainerState.stopped) :
    ((rexists = true ∧ actual = some ContainerState.running) →
        (rt.stop c.containerID 10 = Except.ok () →
          converge rt now c actual rexists =
            { container :=
                { c with state := ContainerState.stopped, updatedAt := now },
              calls := [RuntimeCall.stop c.containerID 10],
              writes := [WriteOp.saveStatus
                { c with state := ContainerState.stopped, updatedAt := now }],
              err := none })
      ∧ ∀ e, rt.stop c.containerID 10 = Except.error e →
          converge rt now c actual rexists =
            { container := c, calls := [RuntimeCall.stop c.containerID 10],
              writes := [], err := some e })
    ∧ (¬(rexists = true ∧ actual = some ContainerState.running) →
        converge rt now c actual rexists =
          { container := c, calls := [], writes := [], err := none }) := by
  constructor
  · intro hcond
    constructor
    · intro hstop
      simp [converge, hds, reconcileStopped, hcond, hstop]
    · intro e hstop
      simp [converge, hds, reconcileStopped, hcond, hstop]
  · intro hcond
    simp [converge, hds, reconcileStopped, hcond]

/-- Witness for C7: a Running-observed container is stopped with grace 10. -/
theorem stopped_convergence_spec_witness :
    converge okRuntime 9 stoppedDesiredContainer
        (some ContainerState.running) true =
      { container := { stoppedDesiredContainer with
                        state := ContainerState.stopped, updatedAt := 9 },
        calls := [RuntimeCall.stop "rt-1" 10],
        writes := [WriteOp.saveStatus { stoppedDesiredContainer with
                        state := ContainerState.stopped, updatedAt := 9 }],
        err := none } :=
  ((stopped_convergence_spec okRuntime 9 stoppedDesiredContainer
      (some ContainerState.running) true rfl).1 ⟨rfl, rfl⟩).1 rfl

/-! ## C5 — create failure leaves the record untouched -/

/-- C5 counterexample: on a create failure the reconcile step does not set
`state = Failed` and persists nothing — refuting the claim that the container
is left Failed and the outcome is persisted. -/
theorem create_failure_counterexample :
    (reconcileContainer createFailRuntime 0 baseContainer).container.state ≠
        ContainerState.failed
    ∧ (reconcileContainer createFailRuntime 0 baseContainer).writes = [] := by
  constructor
  · decide
  · decide

/-- C5 amended: for a container with `desired_state = Running`, below the
restart cap and with no runtime resource (`container_id` empty), a create
failure makes the step return the error after the pull and create calls,
leaving the record unmodified (so `container_id` stays empty and the next
tick retries) and persisting nothing. -/
theorem create_failure_leaves_record_unchanged (rt : Runtime) (now : Nat)
    (c : Container) (e : String)
    (hds : c.desiredState = ContainerState.running)
    (hrc : c.restartCount < 3)
    (hid : c.containerID = "")
    (hpull : rt.pull c.image = Except.ok ())
    (hcreate : rt.create (mkSpec c) = Except.error e) :
    reconcileContainer rt now c =
      { container := c,
        calls := [RuntimeCall.pull c.image, RuntimeCall.create (mkSpec c)],
        writes := [], err := some e } := by
  have hnotq : ¬ (3 ≤ c.restartCount) := by omega
  simp [reconcileContainer, observe, hid, converge, hds, reconcileRunning,
        hnotq, hpull, hcreate]

/-- Witness for the C5 amended theorem at a concrete failing runtime. -/
theorem create_failure_leaves_record_unchanged_witness :
    reconcileContainer createFailRuntime 0 baseContainer =
      { container := baseContainer,
        calls := [RuntimeCall.pull "nginx:alpine",
                  RuntimeCall.create (mkSpec baseContainer)],
        writes := [], err := some "create failed" } :=
  create_failure_leaves_record_unchanged createFailRuntime 0 baseContainer
    "create failed" rfl (by decide) rfl rfl rfl

/-! ## C6 — the Destroyed path -/

/-- C6 counterexample: when `remove` fails, the Destroyed path returns the
error without deleting the record — refuting "the container record is
unconditionally deleted from the Store in that same tick". -/
theorem destroyed_remove_failure_counterexample :
    (reconcileContainer removeFailRuntime 0 destroyedContainer).writes = []
    ∧ (reconcileContainer removeFailRuntime 0 destroyedContainer).err =
        some "remove failed" := by
  constructor
  · decide
  · decide

/-- C6 amended: with `desired_state = Destroyed`, the runtime resource is
(force-)removed when it exists, an inspect that finds no runtime resource is
treated as success, and the record is deleted in the same tick whenever no
runtime resource exists or the remove succeeds; a remove failure returns the
error and aborts the deletion for this tick. -/
theorem destroyed_path_spec (rt : Runtime) (now : Nat) (c : Container)
    (hds : c.desiredState = ContainerState.destroyed) :
    (c.containerID = "" →
        reconcileContainer rt now c =
          { container := c, calls := [],
            writes := [WriteOp.deleteRecord c.id], err := none })
    ∧ (∀ e, c.containerID ≠ "" → rt.inspect c.containerID = Except.error e →
        reconcileContainer rt now c =
          { container := c, calls := [RuntimeCall.inspect c.containerID],
            writes := [WriteOp.deleteRecord c.id], err := none })
    ∧ (∀ st, c.containerID ≠ "" → rt.inspect c.containerID = Except.ok st →
        rt.remove c.containerID = Except.ok () →
        reconcileContainer rt now c =
          { container := c,
            calls := [RuntimeCall.inspect c.containerID,
                      RuntimeCall.remove c.containerID],
            writes := [WriteOp.deleteRecord c.id], err := none })
    ∧ (∀ st e, c.containerID ≠ "" → rt.inspect c.containerID = Except.ok st →
        rt.remove c.containerID = Except.error e →
        reconcileContainer rt now c =
          { container := c,
            calls := [RuntimeCall.inspect c.containerID,
                      RuntimeCall.remove c.containerID],
            writes := [], err := some e }) := by
  refine ⟨?_, ?_, ?_, ?_⟩
  · intro hid
    simp [reconcileContainer, observe, hid, converge, hds, reconcileDestroyed]
  · intro e hid hins
    simp [reconcileContainer, observe, hid, hins, converge, hds,
          reconcileDestroyed]
  · intro st hid hins hrem
    simp [reconcileContainer, observe, hid, hins, converge, hds,
          reconcileDestroyed, hrem]
  · intro st e hid hins hrem
    simp [reconcileContainer, observe, hid, hins, converge, hds,
          reconcileDestroyed, hrem]

/-- Witness for C6 amended: remove succeeds and the record is deleted. -/
theorem destroyed_path_spec_witness :
    reconcileContainer okRuntime 0 destroyedContainer =
      { container := destroyedContainer,
        calls := [RuntimeCall.inspect "rt-1", RuntimeCall.remove "rt-1"],
        writes := [WriteOp.deleteRecord "cont-1"], err := none } :=
  (destroyed_path_spec okRuntime 0 destroyedContainer rfl).2.2.1 okStatus
    (by decide) rfl rfl

/-! ## Scheduler lemmas and C1, C2 -/

/-- When no node of `rest` is Ready the selection loop keeps its accumulator. -/
theorem selectNodeGo_no_ready (containers : List Container) :
    ∀ (rest : List Node) (sel : Option Node) (minC : Nat),
      (∀ n ∈ rest, n.state ≠ NodeState.ready) →
      selectNodeGo containers rest sel minC = sel := by
  intro rest
  induction rest with
  | nil => intro sel minC _; rfl
  | cons n rest ih =>
      intro sel minC h
      have hn : n.state ≠ NodeState.ready := h n (List.mem_cons_self n rest)
      have hrest : ∀ m ∈ rest, m.state ≠ NodeState.ready :=
        fun m hm => h m (List.mem_cons_of_mem n hm)
      simp [selectNodeGo, hn, ih _ _ hrest]

/-- Whatever the selection loop returns is either its accumulator or a Ready
member of the remaining list. -/
theorem selectNodeGo_some (containers : List Container) :
    ∀ (rest : List Node) (sel : Option Node) (minC : Nat) (n : Node),
      selectNodeGo containers rest sel minC = some n →
      sel = some n ∨ (n ∈ rest ∧ n.state = NodeState.ready) := by
  intro rest
  induction rest with
  | nil => intro sel minC n h; exact Or.inl h
  | cons m rest ih =>
      intro sel minC n h
      by_cases hm : m.state = NodeState.ready
      · by_cases hcnt : countContainersOnNode containers m.id < minC
        · rw [selectNodeGo, if_pos hm, if_pos hcnt] at h
          rcases ih _ _ _ h with h' | h'
          · obtain rfl : m = n := Option.some.inj h'
            exact Or.inr ⟨List.mem_cons_self _ _, hm⟩
          · exact Or.inr ⟨List.mem_cons_of_mem m h'.1, h'.2⟩
        · rw [selectNodeGo, if_pos hm, if_neg hcnt] at h
          rcases ih _ _ _ h with h' | h'
          · exact Or.inl h'
          · exact Or.inr ⟨List.mem_cons_of_mem m h'.1, h'.2⟩
      · rw [selectNodeGo, if_neg hm] at h
        rcases ih _ _ _ h with h' | h'
        · exact Or.inl h'
        · exact Or.inr ⟨List.mem_cons_of_mem m h'.1, h'.2⟩

/-- C1 (code bug): with an unscheduled container and a node list containing no
Ready node, `Scheduler.Schedule` is not a no-op — `selectNode` returns nil and
the assignment `container.NodeID = selected.ID` dereferences it, so the call
panics instead of leaving the container unscheduled. -/
theorem schedule_no_ready_node_panics (containers : List Container)
    (nodes : List Node) (now : Nat) (c : Container)
    (hsched : c.scheduled = false)
    (hnone : ∀ n ∈ nodes, n.state ≠ NodeState.ready) :
    schedule containers nodes now c = SchedOutcome.panicked := by
  have hsel : selectNode containers nodes = none :=
    selectNodeGo_no_ready containers nodes none maxGoInt hnone
  simp [schedule, hsched, hsel]

/-- Witness for C1: the first control tick after `add` with no worker
registered (empty node list) panics. -/
theorem schedule_no_ready_node_panics_witness :
    schedule [] [nodeW1NotReady] 0 baseContainer = SchedOutcome.panicked :=
  schedule_no_ready_node_panics [] [nodeW1NotReady] 0 baseContainer rfl
    (by decide)

/-- C2 counterexample: `selectNode` never consults the role field, so a Ready
ControlPlane-role node is selected — refuting "the scheduler never selects a
node whose role is ControlPlane". -/
theorem controlPlane_selected_counterexample :
    selectNode [] [nodeCPReady] = some nodeCPReady
    ∧ nodeCPReady.role = NodeRole.controlPlane := by
  constructor
  · decide
  · rfl

/-- C2 amended: the scheduler only ever selects a node that is in the list and
whose state is Ready; the role field is not consulted, so Worker-role is not
guaranteed (in the running system only workers register, which is why selected
nodes are workers in practice). -/
theorem selected_node_ready (containers : List Container) (nodes : List Node)
    (n : Node) (h : selectNode containers nodes = some n) :
    n ∈ nodes ∧ n.state = NodeState.ready := by
  rcases selectNodeGo_some containers nodes none maxGoInt n h with h' | h'
  · cases h'
  · exact h'

/-- Witness for the C2 amended theorem at a concrete node list. -/
theorem selected_node_ready_witness :
    nodeW2 ∈ [nodeW1NotReady, nodeW2] ∧ nodeW2.state = NodeState.ready :=
  selected_node_ready [] [nodeW1NotReady, nodeW2] nodeW2 (by decide)

/-! ## C9 — the heartbeat handler -/

/-- Keyed lookup over a list with no matching id yields NotFound. -/
theorem getNode_eq_none (nodes : List Node) (nid : String)
    (h : ∀ n ∈ nodes, n.id ≠ nid) : getNode nodes nid = none := by
  induction nodes with
  | nil => rfl
  | cons n rest ih =>
      have hn : n.id ≠ nid := h n (List.mem_cons_self n rest)
      have hrest : ∀ m ∈ rest, m.id ≠ nid :=
        fun m hm => h m (List.mem_cons_of_mem n hm)
      simp [getNode, hn, ih hrest]

/-- A successful keyed lookup returns a member with the looked-up id. -/
theorem getNode_mem (nodes : List Node) (nid : String) (n : Node)
    (h : getNode nodes nid = some n) : n ∈ nodes ∧ n.id = nid := by
  induction nodes with
  | nil => cases h
  | cons m rest ih =>
      by_cases hm : m.id = nid
      · rw [getNode, if_pos hm] at h
        obtain rfl : m = n := Option.some.inj h
        exact ⟨List.mem_cons_self _ _, hm⟩
      · rw [getNode, if_neg hm] at h
        obtain ⟨h1, h2⟩ := ih h
        exact ⟨List.mem_cons_of_mem m h1, h2⟩

/-- C9: a heartbeat for an unknown node id answers 404 and leaves the store
untouched; a heartbeat for a known node answers 200 and rewrites exactly that
node's record with `last_seen = now`, leaving its other fields and every other
record unchanged. -/
theorem heartbeat_spec (nodes : List Node) (nid : String) (now : Nat) :
    ((∀ n ∈ nodes, n.id ≠ nid) →
        heartbeatHandler nodes nid now = (HttpStatus.notFound404, nodes))
    ∧ ∀ n, getNode nodes nid = some n →
        heartbeatHandler nodes nid now =
          (HttpStatus.ok200,
           nodes.map fun m =>
             if m.id = nid then { n with lastSeen := now } else m) := by
  constructor
  · intro h
    rw [heartbeatHandler, getNode_eq_none nodes nid h]
  · intro n hn
    obtain ⟨hmem, hid⟩ := getNode_mem nodes nid n hn
    subst hid
    simp only [heartbeatHandler, hn, saveNode]
    rw [if_pos ⟨n, hmem, rfl⟩]

/-- Witness for C9: a known node's heartbeat answers 200 and bumps only its
`last_seen`. -/
theorem heartbeat_spec_witness :
    heartbeatHandler [nodeW1, nodeW2] "worker-2" 42 =
      (HttpStatus.ok200,
       [nodeW1, nodeW2].map fun m =>
         if m.id = "worker-2" then { nodeW2 with lastSeen := 42 } else m) :=
  (heartbeat_spec [nodeW1, nodeW2] "worker-2" 42).2 nodeW2 (by decide)

/-! ## C3 — the restart cap -/

/-- The start attempt either leaves `restart_count` alone, or increments it
once, marks the container Failed, and — when the increment reaches the cap —
forces `desired_state = Stopped`. -/
theorem startPhase_restartCount (rt : Runtime) (now : Nat) (c : Container)
    (actual : Option ContainerState)
    (calls : List RuntimeCall) (writes : List WriteOp) :
    ((startPhase rt now c actual calls writes).container.restartCount =
        c.restartCount)
    ∨ ((startPhase rt now c actual calls writes).container.restartCount =
          c.restartCount + 1
       ∧ (startPhase rt now c actual calls writes).container.state =
          ContainerState.failed
       ∧ (3 ≤ c.restartCount + 1 →
          (startPhase rt now c actual calls writes).container.desiredState =
            ContainerState.stopped)) := by
  unfold startPhase
  by_cases ha : actual = some ContainerState.running
  · left; simp [ha]
  · rw [if_neg ha]
    cases hs : rt.start c.containerID with
    | error e =>
        right
        by_cases hcap : (3 : Int) ≤ c.restartCount + 1
        · simp [hcap]
        · simp [hcap]
    | ok u =>
        cases hi : rt.inspect c.containerID with
        | ok st => left; simp
        | error e' => left; simp

/-- Same dichotomy lifted to `reconcileRunning`: an increment only happens
below the quarantine threshold. -/
theorem reconcileRunning_restartCount (rt : Runtime) (now : Nat)
    (c : Container) (actual : Option ContainerState) (rexists : Bool) :
    ((reconcileRunning rt now c actual rexists).container.restartCount =
        c.restartCount)
    ∨ (¬ (3 : Int) ≤ c.restartCount
       ∧ (reconcileRunning rt now c actual rexists).container.restartCount =
          c.restartCount + 1
       ∧ (reconcileRunning rt now c actual rexists).container.state =
          ContainerState.failed
       ∧ (3 ≤ c.restartCount + 1 →
          (reconcileRunning rt now c actual rexists).container.desiredState =
            ContainerState.stopped)) := by
  unfold reconcileRunning
  by_cases hq : (3 : Int) ≤ c.restartCount
  · left; simp [hq]
  · rw [if_neg hq]
    by_cases hex : rexists
    · rw [if_pos hex]
      rcases startPhase_restartCount rt now c actual [] [] with h | h
      · exact Or.inl h
      · exact Or.inr ⟨hq, h.1, h.2.1, h.2.2⟩
    · rw [if_neg hex]
      cases hp : rt.pull c.image with
      | error e => left; rfl
      | ok u =>
          cases hc : rt.create (mkSpec c) with
          | error e => left; rfl
          | ok dockerID =>
              rcases startPhase_restartCount rt now
                  { c with containerID := dockerID,
                           state := ContainerState.created } actual
                  [RuntimeCall.pull c.image, RuntimeCall.create (mkSpec c)]
                  [WriteOp.saveStatus
                    { c with containerID := dockerID,
                             state := ContainerState.created }] with h | h
              · exact Or.inl h
              · exact Or.inr ⟨hq, h.1, h.2.1, h.2.2⟩

/-- `reconcileStopped` never touches the container beyond its state and
`updated_at`. -/
theorem reconcileStopped_container (rt : Runtime) (now : Nat) (c : Container)
    (actual : Option ContainerState) (rexists : Bool) :
    (reconcileStopped rt now c actual rexists).container = c
    ∨ (reconcileStopped rt now c actual rexists).container =
        { c with state := ContainerState.stopped, updatedAt := now } := by
  unfold reconcileStopped
  split
  · cases hs : rt.stop c.containerID 10 with
    | error e => left; rfl
    | ok u => right; rfl
  · left; rfl

/-- `reconcileDestroyed` never mutates the container value. -/
theorem reconcileDestroyed_container (rt : Runtime) (c : Container)
    (rexists : Bool) :
    (reconcileDestroyed rt c rexists).container = c := by
  unfold reconcileDestroyed
  split
  · cases hr : rt.remove c.containerID with
    | error e => rfl
    | ok u => rfl
  · rfl

/-- The convergence-step dichotomy used by the restart-cap invariant. -/
theorem converge_restartCount (rt : Runtime) (now : Nat) (c : Container)
    (actual : Option ContainerState) (rexists : Bool) :
    ((converge rt now c actual rexists).container.restartCount =
        c.restartCount)
    ∨ (¬ (3 : Int) ≤ c.restartCount
       ∧ (converge rt now c actual rexists).container.restartCount =
          c.restartCount + 1
       ∧ (converge rt now c actual rexists).container.state =
          ContainerState.failed
       ∧ (3 ≤ c.restartCount + 1 →
          (converge rt now c actual rexists).container.desiredState =
            ContainerState.stopped)) := by
  unfold converge
  cases hd : c.desiredState
  case running => exact reconcileRunning_restartCount rt now c actual rexists
  case stopped =>
      rcases reconcileStopped_container rt now c actual rexists with h | h
      · left; rw [h]
      · left; rw [h]
  case destroyed =>
      left; rw [reconcileDestroyed_container rt c rexists]
  all_goals left; rfl

/-- C3: `restart_count ≤ 3` is preserved by any sequence of worker
convergence steps, and at the step where `restart_count` reaches 3 the same
step sets `state = Failed` and `desired_state = Stopped`. -/
theorem restart_cap_invariant (now : Nat) (c : Container) :
    (∀ ticks, c.restartCount ≤ 3 →
        (runConvergeTicks now c ticks).1.restartCount ≤ 3)
    ∧ ∀ (rt : Runtime) (actual : Option ContainerState) (rexists : Bool),
        c.restartCount < 3 →
        (converge rt now c actual rexists).container.restartCount = 3 →
        (converge rt now c actual rexists).container.state =
            ContainerState.failed
        ∧ (converge rt now c actual rexists).container.desiredState =
            ContainerState.stopped := by
  constructor
  · intro ticks
    induction ticks generalizing c with
    | nil => intro h; simpa [runConvergeTicks] using h
    | cons t rest ih =>
        intro h
        have hstep :
            (converge t.1 now c t.2.1 t.2.2).container.restartCount ≤ 3 := by
          rcases converge_restartCount t.1 now c t.2.1 t.2.2 with h' | ⟨hq, h1, _, _⟩
          · rw [h']; exact h
          · rw [h1]; omega
        simpa [runConvergeTicks] using ih _ hstep
  · intro rt actual rexists hlt h3
    rcases converge_restartCount rt now c actual rexists with h' | ⟨hq, h1, h2, h4⟩
    · rw [h'] at h3; omega
    · exact ⟨h2, h4 (by rw [h1] at h3; omega)⟩

/-- Witness for C3: the third consecutive start failure takes
`restart_count` from 2 to 3 and in the same step marks the container Failed
with `desired_state = Stopped`. -/
theorem restart_cap_invariant_witness :
    (runConvergeTicks 5 almostCappedContainer
        [(startFailRuntime, some ContainerState.stopped, true)]).1.restartCount ≤ 3
    ∧ ((converge startFailRuntime 5 almostCappedContainer
          (some ContainerState.stopped) true).container.state =
            ContainerState.failed
       ∧ (converge startFailRuntime 5 almostCappedContainer
            (some ContainerState.stopped) true).container.desiredState =
            ContainerState.stopped) :=
  ⟨(restart_cap_invariant 5 almostCappedContainer).1
      [(startFailRuntime, some ContainerState.stopped, true)] (by decide),
   (restart_cap_invariant 5 almostCappedContainer).2 startFailRuntime
      (some ContainerState.stopped) true (by decide) (by decide)⟩

/-! ## C8 — least-loaded selection -/

/-- A node's load never exceeds the number of containers in the store. -/
theorem countContainersOnNode_le (containers : List Container) (nid : String) :
    countContainersOnNode containers nid ≤ containers.length :=
  List.length_filter_le _ _

/-- The selection loop maintains `ReadyMin` over the processed prefix. -/
theorem selectNodeGo_inv (containers : List Container) :
    ∀ (rest pre : List Node) (sel : Option Node) (minC : Nat),
      ReadyMin containers pre sel minC →
      ∃ minC', ReadyMin containers (pre ++ rest)
          (selectNodeGo containers rest sel minC) minC' := by
  intro rest
  induction rest with
  | nil =>
      intro pre sel minC h
      refine ⟨minC, ?_⟩
      simpa [selectNodeGo] using h
  | cons n rest ih =>
      intro pre sel minC h
      have hpre : ∀ m ∈ pre, m.state = NodeState.ready →
          minC ≤ countContainersOnNode containers m.id := by
        cases sel with
        | none =>
            simp only [ReadyMin] at h
            obtain ⟨h1, h2⟩ := h
            intro m hm hmr
            have := h2 m hm hmr
            omega
        | some s =>
            simp only [ReadyMin] at h
            obtain ⟨hs, hminC, p₁, p₂, hdec, hp₁, hp₂⟩ := h
            intro m hm hmr
            rw [hdec] at hm
            rcases List.mem_append.mp hm with hm₁ | hm₂
            · have := hp₁ m hm₁ hmr; omega
            · rcases List.mem_cons.mp hm₂ with rfl | hm₃
              · omega
              · have := hp₂ m hm₃ hmr; omega
      by_cases hn : n.state = NodeState.ready
      · by_cases hcnt : countContainersOnNode containers n.id < minC
        · rw [selectNodeGo, if_pos hn, if_pos hcnt]
          have h' : ReadyMin containers (pre ++ [n]) (some n)
              (countContainersOnNode containers n.id) := by
            simp only [ReadyMin]
            refine ⟨hn, by simp, pre, [], by simp, ?_, by simp⟩
            intro m hm hmr
            have := hpre m hm hmr
            omega
          have hrec := ih (pre ++ [n]) (some n) _ h'
          simpa [List.append_assoc] using hrec
        · rw [selectNodeGo, if_pos hn, if_neg hcnt]
          have h' : ReadyMin containers (pre ++ [n]) sel minC := by
            cases sel with
            | none =>
                simp only [ReadyMin] at h ⊢
                obtain ⟨h1, h2⟩ := h
                refine ⟨h1, ?_⟩
                intro m hm hmr
                rcases List.mem_append.mp hm with hm₁ | hm₂
                · exact h2 m hm₁ hmr
                · have hmn : m = n := List.mem_singleton.mp hm₂
                  subst hmn
                  omega
            | some s =>
                simp only [ReadyMin] at h ⊢
                obtain ⟨hs, hminC, p₁, p₂, hdec, hp₁, hp₂⟩ := h
                refine ⟨hs, hminC, p₁, p₂ ++ [n], ?_, hp₁, ?_⟩
                · rw [hdec]; simp
                · intro m hm hmr
                  rcases List.mem_append.mp hm with hm₁ | hm₂
                  · exact hp₂ m hm₁ hmr
                  · have hmn : m = n := List.mem_singleton.mp hm₂
                    subst hmn
                    omega
          have hrec := ih (pre ++ [n]) sel minC h'
          simpa [List.append_assoc] using hrec
      · rw [selectNodeGo, if_neg hn]
        have h' : ReadyMin containers (pre ++ [n]) sel minC := by
          cases sel with
          | none =>
              simp only [ReadyMin] at h ⊢
              obtain ⟨h1, h2⟩ := h
              refine ⟨h1, ?_⟩
              intro m hm hmr
              rcases List.mem_append.mp hm with hm₁ | hm₂
              · exact h2 m hm₁ hmr
              · have hmn : m = n := List.mem_singleton.mp hm₂
                subst hmn
                exact absurd hmr hn
          | some s =>
              simp only [ReadyMin] at h ⊢
              obtain ⟨hs, hminC, p₁, p₂, hdec, hp₁, hp₂⟩ := h
              refine ⟨hs, hminC, p₁, p₂ ++ [n], ?_, hp₁, ?_⟩
              · rw [hdec]; simp
              · intro m hm hmr
                rcases List.mem_append.mp hm with hm₁ | hm₂
                · exact hp₂ m hm₁ hmr
                · have hmn : m = n := List.mem_singleton.mp hm₂
                  subst hmn
                  exact absurd hmr hn
        have hrec := ih (pre ++ [n]) sel minC h'
        simpa [List.append_assoc] using hrec

/-- C8: on a node list with at least one Ready node (and fewer containers
than the Go `int` maximum, so no count saturates the initial minimum), the
scheduler picks a Ready node of minimal load — load being the count of
containers assigned to it with observed state Running — taking the first such
node in list order on ties; and the choice is a function of the container
list and node list alone, so repeated invocations agree. -/
theorem selectNode_least_loaded (containers : List Container)
    (nodes : List Node)
    (hlen : containers.length < maxGoInt)
    (hready : ∃ n, n ∈ nodes ∧ n.state = NodeState.ready) :
    ∃ s p₁ p₂, selectNode containers nodes = some s
      ∧ s.state = NodeState.ready
      ∧ nodes = p₁ ++ s :: p₂
      ∧ (∀ m ∈ nodes, m.state = NodeState.ready →
          countContainersOnNode containers s.id ≤
            countContainersOnNode containers m.id)
      ∧ (∀ m ∈ p₁, m.state = NodeState.ready →
          countContainersOnNode containers s.id <
            countContainersOnNode containers m.id)
      ∧ ∀ (containers₂ : List Container) (nodes₂ : List Node),
          containers₂ = containers → nodes₂ = nodes →
          selectNode containers₂ nodes₂ = some s := by
  have hbase : ReadyMin containers [] none maxGoInt := by
    simp [ReadyMin]
  obtain ⟨minC', hinv⟩ :=
    selectNodeGo_inv containers nodes [] none maxGoInt hbase
  rw [List.nil_append] at hinv
  cases hsel : selectNode containers nodes with
  | none =>
      exfalso
      unfold selectNode at hsel
      rw [hsel] at hinv
      simp only [ReadyMin] at hinv
      obtain ⟨n, hn, hnr⟩ := hready
      have h1 := hinv.2 n hn hnr
      have h2 := countContainersOnNode_le containers n.id
      omega
  | some s =>
      unfold selectNode at hsel
      rw [hsel] at hinv
      simp only [ReadyMin] at hinv
      obtain ⟨hs, hminC, p₁, p₂, hdec, hp₁, hp₂⟩ := hinv
      refine ⟨s, p₁, p₂, rfl, hs, hdec, ?_, hp₁, ?_⟩
      · intro m hm hmr
        rw [hdec] at hm
        rcases List.mem_append.mp hm with hm₁ | hm₂
        · exact le_of_lt (hp₁ m hm₁ hmr)
        · rcases List.mem_cons.mp hm₂ with rfl | hm₃
          · exact le_refl _
          · exact hp₂ m hm₃ hmr
      · intro containers₂ nodes₂ hc hn
        rw [hc, hn]
        unfold selectNode
        exact hsel

/-- Witness for C8: with two Running containers on worker-1 and none on
worker-2, the scheduler picks worker-2 (spec §8 scenario 4). -/
theorem selectNode_least_loaded_witness :
    ∃ s p₁ p₂, selectNode loadedContainers [nodeW1, nodeW2] = some s
      ∧ s.state = NodeState.ready
      ∧ [nodeW1, nodeW2] = p₁ ++ s :: p₂
      ∧ (∀ m ∈ [nodeW1, nodeW2], m.state = NodeState.ready →
          countContainersOnNode loadedContainers s.id ≤
            countContainersOnNode loadedContainers m.id)
      ∧ (∀ m ∈ p₁, m.state = NodeState.ready →
          countContainersOnNode loadedContainers s.id <
            countContainersOnNode loadedContainers m.id)
      ∧ ∀ (containers₂ : List Container) (nodes₂ : List Node),
          containers₂ = loadedContainers → nodes₂ = [nodeW1, nodeW2] →
          selectNode containers₂ nodes₂ = some s :=
  selectNode_least_loaded loadedContainers [nodeW1, nodeW2] (by decide)
    ⟨nodeW1, by decide, rfl⟩

end Cogsworth
